import Mathlib

/-!
Verification development for the vibe-controller server core: the in-memory
agent state registry (`src/server/src/agent/state.ts`), the agent runner
(`src/server/src/agent/agent.ts`), the experiment file store
(`src/server/src/filesystem.ts`) and the HTTP experiment routes
(`src/server/src/routes/experiment.ts`).

Modelling conventions:
* timestamps (`new Date().toISOString()`) are modelled as natural numbers and
  threaded explicitly as a `now` argument; the ISO rendering is a monotone
  injective runtime primitive, so ordering facts transfer;
* JSON values are an inductive `Json`; JS numbers are modelled as integers
  (none of the verified claims inspects float-specific behaviour);
* `JSON.stringify`/`JSON.parse` are runtime primitives external to the
  repository; file contents are modelled as either a parsed JSON value or
  unparsable `garbage`, which captures exactly the distinction the source
  observes (parse succeeds / parse throws);
* the file system is a flat map from absolute paths (segment lists) to
  entries, plus the working directory;
* status values and message types are strings, as in the TypeScript source
  (string literal unions).
-/

namespace Vibe

/-- JSON value (JS numbers modelled as integers). -/
inductive Json where
  | null
  | bool (b : Bool)
  | num (n : Int)
  | str (s : String)
  | arr (elems : List Json)
  | obj (fields : List (String × Json))

/-- Property read `j[k]` on a JS value: `none` models `undefined`
(absent key, or property access on a non-object). -/
def getField : Json → String → Option Json
  | Json.obj fields, k => (fields.find? (fun f => f.1 == k)).map (·.2)
  | _, _ => none

/-- JS truthiness of a JSON value. -/
def truthy : Json → Bool
  | Json.null => false
  | Json.bool b => b
  | Json.num n => decide (n ≠ 0)
  | Json.str s => decide (s ≠ "")
  | Json.arr _ => true
  | Json.obj _ => true

/-- `v || dflt` where `v` is a property read (`none` = `undefined`). -/
def jsOr (v : Option Json) (dflt : Json) : Json :=
  match v with
  | some j => if truthy j then j else dflt
  | none => dflt

/-- Helper for property assignment on an object's field list. -/
def setFieldList : List (String × Json) → String → Json → List (String × Json)
  | [], k, v => [(k, v)]
  | f :: fs, k, v => if f.1 = k then (k, v) :: fs else f :: setFieldList fs k v

/-- Property assignment `j[k] = v` on an object; on any other value the
assignment either throws (primitives, strict mode) or is dropped by
`JSON.stringify` (arrays) — those cases are handled at the call sites. -/
def setField (j : Json) (k : String) (v : Json) : Json :=
  match j with
  | Json.obj fields => Json.obj (setFieldList fields k v)
  | other => other

/-- One entry of an agent run's message log
(`AgentMessage`, src/server/src/agent/state.ts). -/
structure AgentMessage where
  timestamp : Nat
  content : String
  type : String
deriving DecidableEq

/-- One agent run state record (`AgentState`, src/server/src/agent/state.ts).
Note: the source's status union is `'running' | 'completed' | 'error'` —
it has no `'pending'` member. -/
structure AgentState where
  id : String
  status : String
  startTime : Nat
  lastUpdate : Nat
  error : Option String
  messages : List AgentMessage
deriving DecidableEq

/-- The registry's `Map<string, AgentState>`, as an insert-ordered
association list with unique keys. -/
abbrev Registry := List (String × AgentState)

/-- `Map.get`. -/
def mapGet : Registry → String → Option AgentState
  | [], _ => none
  | e :: m, k => if e.1 = k then some e.2 else mapGet m k

/-- `Map.set`: replaces the value under an existing key in place,
otherwise appends. -/
def mapSet : Registry → String → AgentState → Registry
  | [], k, v => [(k, v)]
  | e :: m, k, v => if e.1 = k then (k, v) :: m else e :: mapSet m k v

/-- `AgentStateManager.createState` (state.ts lines 31–41): inserts a fresh
record with status `'running'`, empty message log, both time fields set to
the current time; returns the new record. -/
def createState (states : Registry) (id : String) (now : Nat) :
    Registry × AgentState :=
  let state : AgentState :=
    { id := id, status := "running", startTime := now, lastUpdate := now,
      error := none, messages := [] }
  (mapSet states id state, state)

/-- `AgentStateManager.addMessage` (state.ts lines 43–60): returns `null` and
leaves the map untouched when the id is unknown; otherwise appends the
message and refreshes `lastUpdate`. The record's `status` is not read or
written anywhere in this function. -/
def addMessage (states : Registry) (id content ty : String) (now : Nat) :
    Registry × Option AgentState :=
  match mapGet states id with
  | none => (states, none)
  | some state =>
    let message : AgentMessage := { timestamp := now, content := content, type := ty }
    let updatedState : AgentState :=
      { state with messages := state.messages ++ [message], lastUpdate := now }
    (mapSet states id updatedState, some updatedState)

/-- The partial update accepted by `updateState`
(`Partial<Omit<AgentState, 'messages'>>`). -/
structure StateUpdate where
  id : Option String
  status : Option String
  startTime : Option Nat
  lastUpdate : Option Nat
  error : Option String
deriving DecidableEq

/-- `AgentStateManager.updateState` (state.ts lines 62–73): returns `null` and
leaves the map untouched when the id is unknown; otherwise spreads the update
over the record and then overrides `lastUpdate` with the current time.
`messages` is excluded from the update type and is carried over unchanged. -/
def updateState (states : Registry) (id : String) (update : StateUpdate) (now : Nat) :
    Registry × Option AgentState :=
  match mapGet states id with
  | none => (states, none)
  | some state =>
    let updatedState : AgentState :=
      { id := update.id.getD state.id
        status := update.status.getD state.status
        startTime := update.startTime.getD state.startTime
        lastUpdate := now
        error := match update.error with
                 | some e => some e
                 | none => state.error
        messages := state.messages }
    (mapSet states id updatedState, some updatedState)

/-- `AgentStateManager.getState` (state.ts lines 75–77). -/
def getState (states : Registry) (id : String) : Option AgentState :=
  mapGet states id

/-- One entry of the log array returned by `GET /get_experiment_state`. -/
structure LogEntry where
  type : String
  content : String
  timestamp : Nat
  status : String
deriving DecidableEq

/-- Response of `GET /get_experiment_state`. -/
structure StateResp where
  code : Nat
  status : String
  log : List LogEntry
deriving DecidableEq

/-- `GET /get_experiment_state` (routes/experiment.ts lines 141–189). The
query parameter is `none` when absent. The source's guard
`if (!id || typeof id !== 'string')` also rejects the empty string, which is
falsy in JS. When no state exists the handler answers 200 with status
`'pending'` and a single placeholder log entry; otherwise it answers 200 with
the record's status and its messages mapped to log entries whose `status`
field carries the message type. -/
def getExperimentState (states : Registry) (idQuery : Option String) (now : Nat) :
    StateResp :=
  match idQuery with
  | none => { code := 400, status := "error", log := [] }
  | some id =>
    if id = "" then { code := 400, status := "error", log := [] }
    else
      match getState states id with
      | none =>
        { code := 200, status := "pending",
          log := [{ type := "assistant", content := "Waiting for agent to start...",
                    timestamp := now, status := "pending" }] }
      | some state =>
        { code := 200, status := state.status,
          log := state.messages.map (fun msg =>
            { type := "assistant", content := msg.content,
              timestamp := msg.timestamp, status := msg.type }) }

/-- An absolute file-system path, as its list of segments
(`[] = "/"`, `["a","b"] = "/a/b"`). -/
abbrev FPath := List String

/-- Content of a regular file: a value that `JSON.parse` recovers, or
text on which `JSON.parse` throws. -/
inductive FileContent where
  | json (j : Json)
  | garbage

/-- A directory entry. -/
inductive Entry where
  | dir
  | file (content : FileContent)

/-- Flat file-system model: working directory plus a map from absolute
paths to entries. -/
structure Fs where
  cwd : FPath
  entries : List (FPath × Entry)

/-- Path lookup in the entry map. -/
def lookupEntry : List (FPath × Entry) → FPath → Option Entry
  | [], _ => none
  | e :: es, p => if e.1 = p then some e.2 else lookupEntry es p

/-- `fs.existsSync`. -/
def existsSyncB (fs : Fs) (p : FPath) : Bool :=
  (lookupEntry fs.entries p).isSome

/-- `fs.statSync(p).isDirectory()` guarded by existence. -/
def isDirB (fs : Fs) (p : FPath) : Bool :=
  match lookupEntry fs.entries p with
  | some Entry.dir => true
  | _ => false

/-- Replace-or-append in the entry map. -/
def setEntry : List (FPath × Entry) → FPath → Entry → List (FPath × Entry)
  | [], p, e => [(p, e)]
  | x :: es, p, e => if x.1 = p then (p, e) :: es else x :: setEntry es p e

/-- `fs.writeFileSync` of a JSON document (or any content). -/
def writeFile (fs : Fs) (p : FPath) (c : FileContent) : Fs :=
  { fs with entries := setEntry fs.entries p (Entry.file c) }

/-- One step of `mkdirSync(..., {recursive: true})`: create a directory if
nothing exists at the path. -/
def addDirIfAbsent (es : List (FPath × Entry)) (p : FPath) : List (FPath × Entry) :=
  if (lookupEntry es p).isSome then es else es ++ [(p, Entry.dir)]

/-- `fs.mkdirSync(p, {recursive: true})`: creates the directory and any
missing ancestors. -/
def mkdirRec (fs : Fs) (p : FPath) : Fs :=
  { fs with entries :=
      ((List.range p.length).map (fun i => p.take (i + 1))).foldl addDirIfAbsent fs.entries }

/-- `path`-style rendering of an absolute path. -/
def renderPath : FPath → String
  | [] => "/"
  | s :: rest => (s :: rest).foldl (fun acc seg => acc ++ "/" ++ seg) ""

/-- The `while` guard of `searchForRoot` (filesystem.ts lines 4–22):
`currentDir !== '/' && currentDir.length > 1`. -/
def searchGuard (dir : FPath) : Bool :=
  decide (renderPath dir ≠ "/" ∧ (renderPath dir).length > 1)

/-- The loop body of `searchForRoot` in `getRootPath` (filesystem.ts lines
4–22), run with explicit fuel. In the source, the statement
`currentDir = join(currentDir, '..')` sits inside a `catch` handler, but the
`try` block (a `path.join` and an `fs.existsSync`) cannot throw, so every
iteration leaves `currentDir` unchanged. Result: `none` = the fuel ran out
with the loop still running; `some none` = the function returned `null`;
`some (some dir)` = the function returned `dir`. -/
def searchForRoot (fs : Fs) : Nat → FPath → Option (Option FPath)
  | 0, _ => none
  | Nat.succ fuel, currentDir =>
    if searchGuard currentDir then
      if existsSyncB fs (currentDir ++ [".root"]) then some (some currentDir)
      else searchForRoot fs fuel currentDir
    else some none

/-- `getRootPath` (filesystem.ts lines 4–22): runs the marker search from the
current working directory. -/
def getRootPath (fs : Fs) (fuel : Nat) : Option (Option FPath) :=
  searchForRoot fs fuel fs.cwd

/-- `getExperimentsPath` (filesystem.ts lines 24–27):
`join(getRootPath()!, 'experiments')`. `none` collapses the two failure
modes a caller can observe: a `null` root (the non-null assertion makes the
join throw) and a never-returning root search. -/
def getExperimentsPath (fs : Fs) (fuel : Nat) : Option FPath :=
  match getRootPath fs fuel with
  | some (some root) => some (root ++ ["experiments"])
  | _ => none

/-- `ensureExperimentsDir` (filesystem.ts lines 29–38): `accessSync` throws
when the path is absent, in which case the directory is created. -/
def ensureExperimentsDir (fs : Fs) (fuel : Nat) : Option (Fs × FPath) :=
  match getExperimentsPath fs fuel with
  | none => none
  | some p => if existsSyncB fs p then some (fs, p) else some (mkdirRec fs p, p)

/-- `ensureExperimentDir` (filesystem.ts lines 40–50). -/
def ensureExperimentDir (fs : Fs) (fuel : Nat) (id : String) : Option (Fs × FPath) :=
  match ensureExperimentsDir fs fuel with
  | none => none
  | some (fs1, base) =>
    let p := base ++ [id]
    if existsSyncB fs1 p then some (fs1, p) else some (mkdirRec fs1 p, p)

/-- `saveExperiment` (filesystem.ts lines 52–58): writes the serialized data
to `<experiments>/<id>/experiment.json` and returns the file path.
Serialization is `JSON.stringify`, a runtime primitive; the model stores the
JSON value itself. -/
def saveExperiment (fs : Fs) (fuel : Nat) (id : String) (data : Json) :
    Option (Fs × FPath) :=
  match ensureExperimentDir fs fuel id with
  | none => none
  | some (fs1, dir) =>
    let filePath := dir ++ ["experiment.json"]
    some (writeFile fs1 filePath (FileContent.json data), filePath)

/-- `loadExperiment` (filesystem.ts lines 60–71): reads and parses the JSON
file; the `catch` converts a missing file, a directory at the path, or an
unparsable file into a `null` result (the inner `none`). -/
def loadExperiment (fs : Fs) (fuel : Nat) (id : String) : Option (Option Json) :=
  match getExperimentsPath fs fuel with
  | none => none
  | some base =>
    let filePath := base ++ [id, "experiment.json"]
    match lookupEntry fs.entries filePath with
    | some (Entry.file (FileContent.json j)) => some (some j)
    | _ => some none

/-- `fs.readdirSync`: the names of the entries directly under a path. -/
def readdir (fs : Fs) (p : FPath) : List String :=
  fs.entries.filterMap (fun e =>
    if e.1.length = p.length + 1 ∧ p.isPrefixOf e.1 then e.1.getLast? else none)

/-- The projection built by `listExperiments` for one experiment
(src/unnamed/part_001 lines 93–98). The `||`-defaults follow the source:
a falsy `status` becomes `"unknown"`, a falsy `startTime` becomes the
current time, a falsy `instructions` becomes `""`. -/
structure ExpSummary where
  id : String
  status : Json
  startTime : Json
  instructions : Json

/-- Projection of one parsed `experiment.json` document. -/
def projectSummary (id : String) (data : Json) (now : Int) : ExpSummary :=
  { id := id
    status := jsOr (getField data "status") (Json.str "unknown")
    startTime := jsOr (getField data "startTime") (Json.num now)
    instructions := jsOr (getField data "instructions") (Json.str "") }

/-- Reads a file as JSON, `none` when missing, a directory, or unparsable. -/
def readFileJson (fs : Fs) (p : FPath) : Option Json :=
  match lookupEntry fs.entries p with
  | some (Entry.file (FileContent.json j)) => some j
  | _ => none

/-- The pre-sort experiment collection of `listExperiments`
(src/unnamed/part_001 lines 85–103): one projected entry per directory
entry whose `experiment.json` exists and parses; entries whose read or
parse throws are skipped by the `catch`. -/
def parsedSummaries (fs : Fs) (now : Int) : List ExpSummary :=
  let dir := fs.cwd ++ ["experiments"]
  (readdir fs dir).filterMap (fun id =>
    let p := dir ++ [id, "experiment.json"]
    if existsSyncB fs p then
      match readFileJson fs p with
      | some data => some (projectSummary id data now)
      | none => none
    else none)

/-- `new Date(v).getTime()` on a model timestamp: timestamps are stored as
JSON numbers (milliseconds); any other value yields an invalid date,
modelled as 0. -/
def getTime : Json → Int
  | Json.num n => n
  | _ => 0

/-- Insertion step of the sort
`experiments.sort((a, b) => getTime(b.startTime) - getTime(a.startTime))`. -/
def insertDesc (x : ExpSummary) : List ExpSummary → List ExpSummary
  | [] => [x]
  | y :: ys =>
    if getTime y.startTime ≤ getTime x.startTime then x :: y :: ys
    else y :: insertDesc x ys

/-- The descending-by-startTime sort of `listExperiments`. JS `sort` with a
consistent comparator produces some ordering compatible with the comparator;
insertion sort is one such. -/
def sortDesc (l : List ExpSummary) : List ExpSummary := l.foldr insertDesc []

/-- `listExperiments` (src/unnamed/part_001 lines 73–108): enumerates
`<cwd>/experiments` (this function joins from `process.cwd()` directly, not
from the marker root), projects every entry whose `experiment.json` parses,
and sorts by `startTime` descending. -/
def listExperiments (fs : Fs) (now : Int) : List ExpSummary :=
  let dir := fs.cwd ++ ["experiments"]
  if existsSyncB fs dir then sortDesc (parsedSummaries fs now) else []

/-- `droneTestDataSchema.parse` (routes/experiment.ts lines 17–29),
as a boolean validity check: an object with numeric
`position.{x,y,z}`, numeric `controls.{throttle,pitch,roll}` and a string
`timestamp`. -/
def isNumJ : Option Json → Bool
  | some (Json.num _) => true
  | _ => false

/-- String-typed field check. -/
def isStrJ : Option Json → Bool
  | some (Json.str _) => true
  | _ => false

/-- Validity of one telemetry point under `droneTestDataSchema`. -/
def isValidPoint (j : Json) : Bool :=
  (match getField j "position" with
   | some p => isNumJ (getField p "x") && isNumJ (getField p "y") && isNumJ (getField p "z")
   | none => false) &&
  (match getField j "controls" with
   | some c => isNumJ (getField c "throttle") && isNumJ (getField c "pitch")
               && isNumJ (getField c "roll")
   | none => false) &&
  isStrJ (getField j "timestamp")

/-- `POST /store_test_data` (routes/experiment.ts lines 66–118). Steps, in
source order: reject a missing query id (400); destructure `testData` from
the body and reject anything that is not an array (400); validate every
point against the schema (400 on the first mismatch); load the experiment
and answer 404 when it is absent; append the raw points to
`experiment.testData` (a falsy stored field is replaced by `[]` first) and
save. A stored non-array truthy `testData` makes `push` throw, caught as
500; a primitive experiment document makes the strict-mode property
assignment throw, caught as 500; an array document accepts the property but
`JSON.stringify` drops it again, so the save leaves the document unchanged.
Outer `none` = the root search inside load/save did not finish in fuel. -/
def storeTestData (fs : Fs) (fuel : Nat) (idQuery : Option String) (body : Json) :
    Option (Fs × Nat) :=
  match idQuery with
  | none => some (fs, 400)
  | some id =>
    match getField body "testData" with
    | some (Json.arr points) =>
      if points.all isValidPoint then
        match loadExperiment fs fuel id with
        | none => none
        | some none => some (fs, 404)
        | some (some exp) =>
          match exp with
          | Json.obj fields =>
            match jsOr (getField (Json.obj fields) "testData") (Json.arr []) with
            | Json.arr old =>
              let newExp := setField (Json.obj fields) "testData" (Json.arr (old ++ points))
              match saveExperiment fs fuel id newExp with
              | none => none
              | some (fs1, _) => some (fs1, 200)
            | _ => some (fs, 500)
          | Json.arr elems =>
            match saveExperiment fs fuel id (Json.arr elems) with
            | none => none
            | some (fs1, _) => some (fs1, 200)
          | _ => some (fs, 500)
      else some (fs, 400)
    | _ => some (fs, 400)

/-- `GET /get_test_data` (routes/experiment.ts lines 120–139): 400 without a
query id, 404 when the experiment does not load, otherwise 200 with
`experiment.testData || []`. -/
def getTestData (fs : Fs) (fuel : Nat) (idQuery : Option String) :
    Option (Nat × Option Json) :=
  match idQuery with
  | none => some (400, none)
  | some id =>
    match loadExperiment fs fuel id with
    | none => none
    | some none => some (404, none)
    | some (some exp) => some (200, some (jsOr (getField exp "testData") (Json.arr [])))

/-- Environment facts consumed by `startAgent` that live outside the
modelled experiment tree: the result of `execSync('which claude')`
(`none` = the lookup threw), whether the resolved binary exists on disk,
and whether the recursive template copy throws. -/
structure AgentEnv where
  whichClaude : Option String
  claudePathExists : Bool
  copyFails : Bool

/-- The copy `fs.cpSync(src, dest, {recursive: true})`, at the granularity
the verified claims observe: the destination becomes an existing
directory. -/
def copyDir (fs : Fs) (dest : FPath) : Fs :=
  { fs with entries := setEntry fs.entries dest Entry.dir }

/-- The synchronous part of `startAgent` (agent.ts lines 161–254), through
the spawn of the agent process, with each branch in source order. The
returned boolean tells whether the agent process was spawned. String
messages follow the source (quotes/backticks around names omitted). Note
the source order: the template-missing, copy-failure and
directory-missing branches call `addMessage`/`updateState` *before*
`createState` ever runs for this id. -/
def startAgentSync (env : AgentEnv) (fs : Fs) (states : Registry)
    (id : String) (directory : FPath) (now : Nat) : Fs × Registry × Bool :=
  let absExperimentDir := directory
  let workspaceRoot := directory.dropLast.dropLast
  let srcPath := workspaceRoot ++ ["drone-challenge"]
  let destPath := absExperimentDir ++ ["drone-challenge"]
  if existsSyncB fs srcPath = false then
    let errorMsg := "Source drone-challenge directory not found at: " ++ renderPath srcPath
    let s1 := (addMessage states id errorMsg "error" now).1
    let s2 := (updateState s1 id
      { id := none, status := some "error", startTime := none,
        lastUpdate := none, error := some errorMsg } now).1
    (fs, s2, false)
  else
    let fs1 := if existsSyncB fs absExperimentDir then fs else mkdirRec fs absExperimentDir
    if env.copyFails then
      let errorMsg := "Failed to copy drone-challenge directory"
      let s1 := (addMessage states id errorMsg "error" now).1
      let s2 := (updateState s1 id
        { id := none, status := some "error", startTime := none,
          lastUpdate := none, error := some errorMsg } now).1
      (fs1, s2, false)
    else
      let fs2 := copyDir fs1 destPath
      let s0 := (addMessage states id
        ("Copied drone-challenge to: " ++ renderPath destPath) "info" now).1
      if (existsSyncB fs2 destPath && isDirB fs2 destPath) = false then
        let errorMsg := "Experiment drone-challenge directory not found: " ++ renderPath destPath
        let s1 := (addMessage s0 id errorMsg "error" now).1
        let s2 := (updateState s1 id
          { id := none, status := some "error", startTime := none, lastUpdate := none,
            error := some ("Directory not found: " ++ renderPath destPath) } now).1
        (fs2, s2, false)
      else
        let s1 := (createState s0 id now).1
        let s2 := (addMessage s1 id "Starting agent process..." "info" now).1
        match env.whichClaude with
        | none =>
          let errorMsg := "Could not locate claude on PATH. Install it or adjust PATH."
          let s3 := (addMessage s2 id errorMsg "error" now).1
          let s4 := (updateState s3 id
            { id := none, status := some "error", startTime := none,
              lastUpdate := none, error := some errorMsg } now).1
          (fs2, s4, false)
        | some claudePath =>
          if env.claudePathExists = false then
            let errorMsg := "Claude binary not found at: " ++ claudePath
            let s3 := (addMessage s2 id errorMsg "error" now).1
            let s4 := (updateState s3 id
              { id := none, status := some "error", startTime := none,
                lastUpdate := none, error := some errorMsg } now).1
            (fs2, s4, false)
          else
            let s3 := (addMessage s2 id ("Using claude at: " ++ claudePath) "info" now).1
            (fs2, s3, true)

/-- JS `Number()` on one CSV field, modelled on integer-valued strings
(`none` = NaN / missing field). The batching claim does not inspect the
numeric values. -/
def jsNumber (s : String) : Option Int := s.toInt?

/-- One telemetry point as parsed by `runDroneImplementation`
(agent.ts lines 111–122): the first four CSV fields; the control values are
hardcoded to 0 by the source. -/
structure SimPoint where
  timestampRaw : Option Int
  posX : Option Int
  posY : Option Int
  posZ : Option Int
deriving DecidableEq

/-- CSV-line destructuring `line.split(',').map(Number)`. -/
def parseCsvLine (line : String) : SimPoint :=
  let nums := (line.splitOn ",").map jsNumber
  { timestampRaw := (nums.get? 0).join, posX := (nums.get? 1).join,
    posY := (nums.get? 2).join, posZ := (nums.get? 3).join }

/-- Mutable state of the simulator-output forwarding loop: the pending
buffer (`testData`) and the batches already POSTed to
`/store_test_data`, in order. -/
structure SimRun where
  buffer : List SimPoint
  posts : List (List SimPoint)
deriving DecidableEq

/-- Processing of one stdout line (agent.ts lines 108–136): header lines
are skipped; every other line is parsed and pushed; when the buffer
reaches 10 points it is POSTed and reset to empty. -/
def processLine (st : SimRun) (line : String) : SimRun :=
  if line.startsWith "timestamp," then st
  else
    let pt := parseCsvLine line
    let buf := st.buffer ++ [pt]
    if 10 ≤ buf.length then { buffer := [], posts := st.posts ++ [buf] }
    else { buffer := buf, posts := st.posts }

/-- The whole stdout stream, as the concatenation of all chunks' lines. -/
def processLines (st : SimRun) (lines : List String) : SimRun :=
  lines.foldl processLine st

/-- The non-header lines of the stream, parsed. -/
def dataLines (lines : List String) : List SimPoint :=
  (lines.filter (fun l => ¬ l.startsWith "timestamp,")).map parseCsvLine

/-- The `close` handler of the simulator process (agent.ts lines 147–153):
it only appends a success or error message to the agent state; it does not
touch the forwarding state, so a partial buffer is never POSTed. -/
def onDroneClose (states : Registry) (id : String) (st : SimRun) (code : Int) (now : Nat) :
    Registry × SimRun :=
  if code = 0 then
    ((addMessage states id "Drone implementation completed successfully" "success" now).1, st)
  else
    ((addMessage states id ("Drone implementation exited with code " ++ toString code)
      "error" now).1, st)

/-! ## Registry lemmas -/

/-- Looking up the key just written returns the written value. -/
theorem mapGet_mapSet_self (m : Registry) (k : String) (v : AgentState) :
    mapGet (mapSet m k v) k = some v := by
  induction m with
  | nil => simp [mapSet, mapGet]
  | cons e m ih =>
    by_cases h : e.1 = k
    · simp [mapSet, h, mapGet]
    · simp [mapSet, h, mapGet, ih]

/-- `addMessage` on an unknown id returns `null` and the map unchanged. -/
theorem addMessage_not_found (states : Registry) (id content ty : String) (now : Nat)
    (h : mapGet states id = none) :
    addMessage states id content ty now = (states, none) := by
  simp [addMessage, h]

/-- `updateState` on an unknown id returns `null` and the map unchanged. -/
theorem updateState_not_found (states : Registry) (id : String) (u : StateUpdate) (now : Nat)
    (h : mapGet states id = none) :
    updateState states id u now = (states, none) := by
  simp [updateState, h]

/-! ## Claims C1, C2, C8, C7 -/

/-- Claim C1, counterexample: after `createState`, the status is already
`"running"` (never `"pending"`), and a subsequent `'error'`-typed
`addMessage` leaves the status `"running"` instead of moving it to
`"error"`. -/
theorem C1_counterexample :
    ((createState ([] : Registry) "exp1" 0).2.status ≠ "pending") ∧
    ((addMessage (addMessage (createState ([] : Registry) "exp1" 0).1 "exp1" "x" "info" 1).1
        "exp1" "y" "error" 2).2.map (·.status) = some "running") := by
  constructor
  · decide
  · rfl

/-- Claim C1 (amended): `createState` sets status `"running"` directly (the
source has no pending state), and `addMessage` never changes the status of
any record: it only appends the message and refreshes `lastUpdate`. In
particular a record whose status is `"error"` keeps status `"error"` across
any further `addMessage`, of any type. -/
theorem C1_addMessage_preserves_status (states : Registry) (id content ty : String)
    (now : Nat) (s : AgentState) (h : getState states id = some s) :
    (createState states id now).2.status = "running" ∧
    addMessage states id content ty now =
      (mapSet states id
        { s with messages := s.messages ++ [⟨now, content, ty⟩], lastUpdate := now },
       some { s with messages := s.messages ++ [⟨now, content, ty⟩], lastUpdate := now }) ∧
    (∀ s', (addMessage states id content ty now).2 = some s' → s'.status = s.status) ∧
    (s.status = "error" →
      ∀ s', (addMessage states id content ty now).2 = some s' → s'.status = "error") := by
  simp only [getState] at h
  refine ⟨rfl, ?_, ?_, ?_⟩
  · simp [addMessage, h]
  · intro s' hs'
    simp [addMessage, h] at hs'
    rw [← hs']
  · intro herr s' hs'
    simp [addMessage, h] at hs'
    rw [← hs']
    exact herr

/-- Witness for C1: a record already in status `"error"` receives one more
`'error'`-typed message; the message is appended and the status stays
`"error"`. -/
theorem C1_witness :
    addMessage [("w1", ⟨"w1", "error", 0, 0, none, []⟩)] "w1" "more" "error" 5
      = ([("w1", ⟨"w1", "error", 0, 5, none, [⟨5, "more", "error"⟩]⟩)],
         some ⟨"w1", "error", 0, 5, none, [⟨5, "more", "error"⟩]⟩) :=
  (C1_addMessage_preserves_status [("w1", ⟨"w1", "error", 0, 0, none, []⟩)]
      "w1" "more" "error" 5 ⟨"w1", "error", 0, 0, none, []⟩ rfl).2.1

/-- Claim C2, counterexample: the record created by `createState` has status
`"running"`, not `"pending"`. -/
theorem C2_counterexample :
    (createState ([] : Registry) "exp2" 7).2.status = "running" ∧
    (createState ([] : Registry) "exp2" 7).2.status ≠ "pending" := by
  exact ⟨rfl, by decide⟩

/-- Claim C2 (amended): for every id, `createState(id)` inserts a record with
status `"running"`, an empty message log, and both `startTime` and
`lastUpdate` equal to the current time; it overwrites any prior record under
the same id without merging, and returns the newly created record. -/
theorem C2_createState_fresh_record (states : Registry) (id : String) (now : Nat) :
    createState states id now =
      (mapSet states id
        { id := id, status := "running", startTime := now, lastUpdate := now,
          error := none, messages := [] },
       { id := id, status := "running", startTime := now, lastUpdate := now,
         error := none, messages := [] }) ∧
    getState (createState states id now).1 id =
      some { id := id, status := "running", startTime := now, lastUpdate := now,
             error := none, messages := [] } := by
  refine ⟨rfl, ?_⟩
  simp only [createState, getState]
  exact mapGet_mapSet_self _ _ _

/-- Claim C8: on an unknown id, `addMessage` and `updateState` are no-ops
returning the not-found signal; neither creates a record, and the map is
unchanged. -/
theorem C8_unknown_id_noop (states : Registry) (id content ty : String)
    (u : StateUpdate) (now : Nat) (h : getState states id = none) :
    addMessage states id content ty now = (states, none) ∧
    updateState states id u now = (states, none) := by
  simp only [getState] at h
  exact ⟨addMessage_not_found _ _ _ _ _ h, updateState_not_found _ _ _ _ h⟩

/-- Witness for C8 on a concrete empty registry and unknown id. -/
theorem C8_witness :
    addMessage ([] : Registry) "ghost" "hello" "info" 3 = ([], none) ∧
    updateState ([] : Registry) "ghost"
      { id := none, status := none, startTime := none, lastUpdate := none, error := none } 3
      = ([], none) :=
  C8_unknown_id_noop [] "ghost" "hello" "info"
    { id := none, status := none, startTime := none, lastUpdate := none, error := none } 3 rfl

/-- Claim C7, counterexample: the empty string is an id with no Agent State
record, yet `get_experiment_state` answers 400 (the guard
`if (!id || ...)` treats `''` as falsy), not 200 with a pending
placeholder. -/
theorem C7_counterexample :
    getState ([] : Registry) "" = none ∧
    (getExperimentState ([] : Registry) (some "") 0).code = 400 := by
  exact ⟨rfl, rfl⟩

/-- Claim C7 (amended): for every nonempty id with no record,
`get_experiment_state` answers 200 with status `"pending"` and exactly one
placeholder log entry; for every nonempty id with a record it answers 200
with the record's status and its messages mapped to log entries. -/
theorem C7_get_experiment_state_spec (states : Registry) (id : String) (now : Nat)
    (hid : id ≠ "") :
    (getState states id = none →
      getExperimentState states (some id) now =
        { code := 200, status := "pending",
          log := [⟨"assistant", "Waiting for agent to start...", now, "pending"⟩] }) ∧
    (∀ s, getState states id = some s →
      getExperimentState states (some id) now =
        { code := 200, status := s.status,
          log := s.messages.map (fun m => ⟨"assistant", m.content, m.timestamp, m.type⟩) }) := by
  constructor
  · intro h
    simp [getExperimentState, hid, h]
  · intro s h
    simp [getExperimentState, hid, h]

/-- Witness for C7: polling a concrete unknown nonempty id yields the 200
pending placeholder response. -/
theorem C7_witness :
    getExperimentState ([] : Registry) (some "w7") 5 =
      { code := 200, status := "pending",
        log := [⟨"assistant", "Waiting for agent to start...", 5, "pending"⟩] } :=
  (C7_get_experiment_state_spec [] "w7" 5 (by decide)).1 rfl

/-! ## File-system lemmas -/

/-- Looking up the path just written returns the written entry. -/
theorem lookupEntry_setEntry_self (es : List (FPath × Entry)) (p : FPath) (e : Entry) :
    lookupEntry (setEntry es p e) p = some e := by
  induction es with
  | nil => simp [setEntry, lookupEntry]
  | cons x es ih =>
    by_cases h : x.1 = p
    · simp [setEntry, h, lookupEntry]
    · simp [setEntry, h, lookupEntry, ih]

/-- Writing one path leaves lookups at any other path unchanged. -/
theorem lookupEntry_setEntry_ne (es : List (FPath × Entry)) (p q : FPath) (e : Entry)
    (h : q ≠ p) :
    lookupEntry (setEntry es p e) q = lookupEntry es q := by
  have hpq : p ≠ q := Ne.symm h
  induction es with
  | nil => simp [setEntry, lookupEntry, hpq]
  | cons x es ih =>
    by_cases hx : x.1 = p
    · simp [setEntry, hx, lookupEntry, hpq]
    · simp [setEntry, hx, lookupEntry, ih]

/-- A successful lookup survives appending entries. -/
theorem lookupEntry_append_some (es xs : List (FPath × Entry)) (p : FPath) (e : Entry)
    (h : lookupEntry es p = some e) :
    lookupEntry (es ++ xs) p = some e := by
  induction es with
  | nil => simp [lookupEntry] at h
  | cons x es ih =>
    by_cases hx : x.1 = p
    · simp [lookupEntry, hx] at h ⊢
      exact h
    · simp only [List.cons_append, lookupEntry, hx, if_false] at h ⊢
      exact ih h

/-- `addDirIfAbsent` preserves every existing entry. -/
theorem lookupEntry_addDirIfAbsent_some (es : List (FPath × Entry)) (p q : FPath) (e : Entry)
    (h : lookupEntry es q = some e) :
    lookupEntry (addDirIfAbsent es p) q = some e := by
  unfold addDirIfAbsent
  split
  · exact h
  · exact lookupEntry_append_some es _ q e h

/-- Folding `addDirIfAbsent` preserves every existing entry. -/
theorem lookupEntry_foldl_addDir_some (ps : List FPath) (es : List (FPath × Entry))
    (q : FPath) (e : Entry) (h : lookupEntry es q = some e) :
    lookupEntry (ps.foldl addDirIfAbsent es) q = some e := by
  induction ps generalizing es with
  | nil => exact h
  | cons p ps ih => exact ih _ (lookupEntry_addDirIfAbsent_some es p q e h)

/-- `mkdirRec` preserves every existing entry. -/
theorem lookupEntry_mkdirRec_some (fs : Fs) (p q : FPath) (e : Entry)
    (h : lookupEntry fs.entries q = some e) :
    lookupEntry (mkdirRec fs p).entries q = some e :=
  lookupEntry_foldl_addDir_some _ _ _ _ h

/-- When the marker file is in the starting directory, the root search
returns it at its first iteration. -/
theorem getRootPath_marker_at_cwd (fs : Fs) (fuel : Nat)
    (hg : searchGuard fs.cwd = true)
    (hm : existsSyncB fs (fs.cwd ++ [".root"]) = true) :
    getRootPath fs (fuel + 1) = some (some fs.cwd) := by
  simp [getRootPath, searchForRoot, hg, hm]

/-- The experiments path under a marker-at-cwd root. -/
theorem getExperimentsPath_marker (fs : Fs) (fuel : Nat)
    (hg : searchGuard fs.cwd = true)
    (hm : existsSyncB fs (fs.cwd ++ [".root"]) = true) :
    getExperimentsPath fs (fuel + 1) = some (fs.cwd ++ ["experiments"]) := by
  simp [getExperimentsPath, getRootPath_marker_at_cwd fs fuel hg hm]

/-- `ensureExperimentsDir` under a marker-at-cwd root: it yields the
experiments directory path, keeps the working directory, and preserves
every existing entry. -/
theorem ensureExperimentsDir_marker (fs : Fs) (fuel : Nat)
    (hg : searchGuard fs.cwd = true)
    (hm : existsSyncB fs (fs.cwd ++ [".root"]) = true) :
    ∃ fs1, ensureExperimentsDir fs (fuel + 1) = some (fs1, fs.cwd ++ ["experiments"]) ∧
      fs1.cwd = fs.cwd ∧
      ∀ q e, lookupEntry fs.entries q = some e → lookupEntry fs1.entries q = some e := by
  simp only [ensureExperimentsDir, getExperimentsPath_marker fs fuel hg hm]
  by_cases h1 : existsSyncB fs (fs.cwd ++ ["experiments"]) = true
  · refine ⟨fs, ?_, rfl, fun q e h => h⟩
    rw [if_pos h1]
  · refine ⟨mkdirRec fs (fs.cwd ++ ["experiments"]), ?_, rfl,
      fun q e h => lookupEntry_mkdirRec_some fs _ q e h⟩
    rw [if_neg h1]

/-- `ensureExperimentDir` under a marker-at-cwd root: it yields the
per-experiment directory path, keeps the working directory, and preserves
every existing entry. -/
theorem ensureExperimentDir_marker (fs : Fs) (fuel : Nat) (id : String)
    (hg : searchGuard fs.cwd = true)
    (hm : existsSyncB fs (fs.cwd ++ [".root"]) = true) :
    ∃ fs1, ensureExperimentDir fs (fuel + 1) id = some (fs1, fs.cwd ++ ["experiments", id]) ∧
      fs1.cwd = fs.cwd ∧
      ∀ q e, lookupEntry fs.entries q = some e → lookupEntry fs1.entries q = some e := by
  obtain ⟨fs1, h1, hcwd1, hp1⟩ := ensureExperimentsDir_marker fs fuel hg hm
  simp only [ensureExperimentDir, h1]
  by_cases h2 : existsSyncB fs1 (fs.cwd ++ ["experiments"] ++ [id]) = true
  · refine ⟨fs1, ?_, hcwd1, hp1⟩
    rw [if_pos h2]
    simp
  · refine ⟨mkdirRec fs1 (fs.cwd ++ ["experiments"] ++ [id]), ?_, hcwd1,
      fun q e h => lookupEntry_mkdirRec_some fs1 _ q e (hp1 q e h)⟩
    rw [if_neg h2]
    simp

/-- `saveExperiment` under a marker-at-cwd root: the document lands at
`<cwd>/experiments/<id>/experiment.json`, the working directory is kept, and
every entry at another path is preserved. -/
theorem saveExperiment_marker (fs : Fs) (fuel : Nat) (id : String) (data : Json)
    (hg : searchGuard fs.cwd = true)
    (hm : existsSyncB fs (fs.cwd ++ [".root"]) = true) :
    ∃ fs', saveExperiment fs (fuel + 1) id data
        = some (fs', fs.cwd ++ ["experiments", id, "experiment.json"]) ∧
      fs'.cwd = fs.cwd ∧
      lookupEntry fs'.entries (fs.cwd ++ ["experiments", id, "experiment.json"])
        = some (Entry.file (FileContent.json data)) ∧
      ∀ q e, q ≠ fs.cwd ++ ["experiments", id, "experiment.json"] →
        lookupEntry fs.entries q = some e → lookupEntry fs'.entries q = some e := by
  obtain ⟨fs1, hdir, hcwd, hpres⟩ := ensureExperimentDir_marker fs fuel id hg hm
  refine ⟨writeFile fs1 (fs.cwd ++ ["experiments", id] ++ ["experiment.json"])
      (FileContent.json data), ?_, ?_, ?_, ?_⟩
  · simp [saveExperiment, hdir]
  · exact hcwd
  · show lookupEntry (setEntry fs1.entries _ _) _ = _
    rw [show fs.cwd ++ ["experiments", id, "experiment.json"]
        = fs.cwd ++ ["experiments", id] ++ ["experiment.json"] by simp]
    exact lookupEntry_setEntry_self _ _ _
  · intro q e hq h
    show lookupEntry (setEntry fs1.entries _ _) q = some e
    rw [lookupEntry_setEntry_ne]
    · exact hpres q e h
    · simpa [List.append_assoc] using hq

/-- `loadExperiment` under a marker-at-cwd root reads
`<cwd>/experiments/<id>/experiment.json` and parses it. -/
theorem loadExperiment_marker (fs : Fs) (fuel : Nat) (id : String)
    (hg : searchGuard fs.cwd = true)
    (hm : existsSyncB fs (fs.cwd ++ [".root"]) = true) :
    loadExperiment fs (fuel + 1) id =
      some (readFileJson fs (fs.cwd ++ ["experiments", id, "experiment.json"])) := by
  simp only [loadExperiment, getExperimentsPath_marker fs fuel hg hm, List.append_assoc,
    List.singleton_append, List.cons_append, List.nil_append, readFileJson]
  rcases lookupEntry fs.entries (fs.cwd ++ ["experiments", id, "experiment.json"]) with
    _ | (_ | (j | _)) <;> rfl

/-- The marker file path is distinct from an experiment's json path. -/
theorem marker_ne_jsonPath (cwd : FPath) (id : String) :
    cwd ++ [".root"] ≠ cwd ++ ["experiments", id, "experiment.json"] := by
  intro h
  have := congrArg List.length h
  simp at this

/-! ## Claim C4 -/

/-- Claim C4 (code bug): the upward marker search does not terminate unless
the marker is in the starting directory itself, because the statement
`currentDir = join(currentDir, '..')` sits inside a `catch` whose `try`
block cannot throw. First conjunct: with the marker only in the parent
directory `/a` of the start `/a/b`, no amount of fuel makes the search
return (neither the containing directory nor `null`). Second conjunct: with
the marker at the start, the search returns the start immediately. -/
theorem C4_root_search_diverges :
    (∀ fuel, searchForRoot
        ⟨["a", "b"], [(["a"], Entry.dir), (["a", "b"], Entry.dir),
                      (["a", ".root"], Entry.file FileContent.garbage)]⟩
        fuel ["a", "b"] = none) ∧
    (∀ fuel, searchForRoot
        ⟨["w"], [(["w"], Entry.dir), (["w", ".root"], Entry.file FileContent.garbage)]⟩
        (fuel + 1) ["w"] = some (some ["w"])) := by
  constructor
  · intro fuel
    induction fuel with
    | zero => rfl
    | succ n ih =>
      rw [searchForRoot]
      rw [show searchGuard ["a", "b"] = true from rfl]
      rw [show existsSyncB
          ⟨["a", "b"], [(["a"], Entry.dir), (["a", "b"], Entry.dir),
                        (["a", ".root"], Entry.file FileContent.garbage)]⟩
          (["a", "b"] ++ [".root"]) = false from rfl]
      simpa using ih
  · intro fuel
    rw [searchForRoot]
    rfl

/-! ## Claim C9 -/

/-- Claim C9: under a resolvable root (marker at the working directory),
`save(id, data)` followed by `load(id)` returns exactly `data`; and `load`
returns the null result — without throwing — when the experiment file is
missing and when it is unparsable. -/
theorem C9_save_load_roundtrip (fs : Fs) (fuel : Nat) (id : String) (data : Json)
    (hg : searchGuard fs.cwd = true)
    (hm : existsSyncB fs (fs.cwd ++ [".root"]) = true) :
    (∃ fs', saveExperiment fs (fuel + 1) id data
        = some (fs', fs.cwd ++ ["experiments", id, "experiment.json"]) ∧
        loadExperiment fs' (fuel + 1) id = some (some data)) ∧
    (lookupEntry fs.entries (fs.cwd ++ ["experiments", id, "experiment.json"]) = none →
      loadExperiment fs (fuel + 1) id = some none) ∧
    (lookupEntry fs.entries (fs.cwd ++ ["experiments", id, "experiment.json"])
        = some (Entry.file FileContent.garbage) →
      loadExperiment fs (fuel + 1) id = some none) := by
  refine ⟨?_, ?_, ?_⟩
  · obtain ⟨fs', hsave, hcwd, hself, hpres⟩ := saveExperiment_marker fs fuel id data hg hm
    obtain ⟨me, hme⟩ := Option.isSome_iff_exists.1 hm
    have hm' : existsSyncB fs' (fs'.cwd ++ [".root"]) = true := by
      rw [hcwd]
      have := hpres (fs.cwd ++ [".root"]) me (marker_ne_jsonPath fs.cwd id) hme
      simp [existsSyncB, this]
    have hg' : searchGuard fs'.cwd = true := by rw [hcwd]; exact hg
    refine ⟨fs', hsave, ?_⟩
    rw [loadExperiment_marker fs' fuel id hg' hm', readFileJson, hcwd, hself]
  · intro h
    rw [loadExperiment_marker fs fuel id hg hm, readFileJson, h]
  · intro h
    rw [loadExperiment_marker fs fuel id hg hm, readFileJson, h]

/-- Witness for C9 on a concrete file system whose working directory `/w`
holds the marker: the round trip restores the saved JSON number, a missing
file loads as null, and a garbage file loads as null. -/
theorem C9_witness :
    (∃ fs', saveExperiment
        ⟨["w"], [(["w"], Entry.dir), (["w", ".root"], Entry.file FileContent.garbage)]⟩
        1 "e9" (Json.num 42)
        = some (fs', ["w"] ++ ["experiments", "e9", "experiment.json"]) ∧
        loadExperiment fs' 1 "e9" = some (some (Json.num 42))) ∧
    (lookupEntry
        ([(["w"], Entry.dir), (["w", ".root"], Entry.file FileContent.garbage)] :
          List (FPath × Entry))
        (["w"] ++ ["experiments", "e9", "experiment.json"]) = none →
      loadExperiment
        ⟨["w"], [(["w"], Entry.dir), (["w", ".root"], Entry.file FileContent.garbage)]⟩
        1 "e9" = some none) ∧
    (lookupEntry
        ([(["w"], Entry.dir), (["w", ".root"], Entry.file FileContent.garbage)] :
          List (FPath × Entry))
        (["w"] ++ ["experiments", "e9", "experiment.json"])
        = some (Entry.file FileContent.garbage) →
      loadExperiment
        ⟨["w"], [(["w"], Entry.dir), (["w", ".root"], Entry.file FileContent.garbage)]⟩
        1 "e9" = some none) :=
  C9_save_load_roundtrip
    ⟨["w"], [(["w"], Entry.dir), (["w", ".root"], Entry.file FileContent.garbage)]⟩
    0 "e9" (Json.num 42) rfl rfl

/-! ## Claim C5 -/

/-- `getField` after `setField` on an object returns the written value. -/
theorem find?_setFieldList_self (fields : List (String × Json)) (k : String) (v : Json) :
    (setFieldList fields k v).find? (fun f => f.1 == k) = some (k, v) := by
  induction fields with
  | nil => simp [setFieldList]
  | cons f fs ih =>
    by_cases h : f.1 = k
    · simp [setFieldList, h]
    · simp [setFieldList, h, List.find?, ih]

/-- Reading the field just assigned on an object. -/
theorem getField_setField_self (fields : List (String × Json)) (k : String) (v : Json) :
    getField (setField (Json.obj fields) k v) k = some v := by
  simp [setField, getField, find?_setFieldList_self]

/-- Claim C5, counterexample: a body carrying a single well-shaped point's
`position`/`controls`/`timestamp` fields directly (not wrapped in a
`testData` array) is rejected with 400 by `store_test_data`, even for an
existing experiment — the handler only accepts the array form. -/
theorem C5_counterexample :
    isValidPoint (Json.obj
      [("position", Json.obj [("x", Json.num 1), ("y", Json.num 2), ("z", Json.num 3)]),
       ("controls",
        Json.obj [("throttle", Json.num 4), ("pitch", Json.num 5), ("roll", Json.num 6)]),
       ("timestamp", Json.str "t")]) = true ∧
    storeTestData
      ⟨["w"], [(["w"], Entry.dir), (["w", ".root"], Entry.file FileContent.garbage),
               (["w", "experiments"], Entry.dir), (["w", "experiments", "e1"], Entry.dir),
               (["w", "experiments", "e1", "experiment.json"],
                Entry.file (FileContent.json
                  (Json.obj [("id", Json.str "e1"), ("testData", Json.arr [])])))]⟩
      1 (some "e1")
      (Json.obj
        [("position", Json.obj [("x", Json.num 1), ("y", Json.num 2), ("z", Json.num 3)]),
         ("controls",
          Json.obj [("throttle", Json.num 4), ("pitch", Json.num 5), ("roll", Json.num 6)]),
         ("timestamp", Json.str "t")]) =
      some
        (⟨["w"], [(["w"], Entry.dir), (["w", ".root"], Entry.file FileContent.garbage),
                  (["w", "experiments"], Entry.dir), (["w", "experiments", "e1"], Entry.dir),
                  (["w", "experiments", "e1", "experiment.json"],
                   Entry.file (FileContent.json
                     (Json.obj [("id", Json.str "e1"), ("testData", Json.arr [])])))]⟩,
         400) :=
  ⟨rfl, rfl⟩

/-- Claim C5 (amended): only the `testData`-array body form is accepted.
Under a resolvable root, for an experiment whose stored document is an
object with a `testData` array: a body `testData: [...]` of well-shaped
points is accepted and its points are appended in order, and a following
`get_test_data` returns all stored points in append order; an id whose
experiment does not load yields 404 (not an empty success); a body with an
ill-shaped point yields 400. -/
theorem C5_store_then_get (fs : Fs) (fuel : Nat) (id : String) (points : List Json)
    (fields : List (String × Json)) (xs : List Json)
    (hg : searchGuard fs.cwd = true)
    (hm : existsSyncB fs (fs.cwd ++ [".root"]) = true)
    (hexp : lookupEntry fs.entries (fs.cwd ++ ["experiments", id, "experiment.json"])
      = some (Entry.file (FileContent.json (Json.obj fields))))
    (htd : getField (Json.obj fields) "testData" = some (Json.arr xs))
    (hvalid : points.all isValidPoint = true) :
    (∃ fs', storeTestData fs (fuel + 1) (some id)
        (Json.obj [("testData", Json.arr points)]) = some (fs', 200) ∧
      getTestData fs' (fuel + 1) (some id)
        = some (200, some (Json.arr (xs ++ points)))) ∧
    (∀ id2, loadExperiment fs (fuel + 1) id2 = some none →
      storeTestData fs (fuel + 1) (some id2)
        (Json.obj [("testData", Json.arr points)]) = some (fs, 404)) ∧
    (∀ bad : List Json, bad.all isValidPoint = false →
      storeTestData fs (fuel + 1) (some id)
        (Json.obj [("testData", Json.arr bad)]) = some (fs, 400)) := by
  have hbody : ∀ ps : List Json,
      getField (Json.obj [("testData", Json.arr ps)]) "testData"
        = some (Json.arr ps) := fun ps => rfl
  refine ⟨?_, ?_, ?_⟩
  · have hload : loadExperiment fs (fuel + 1) id = some (some (Json.obj fields)) := by
      rw [loadExperiment_marker fs fuel id hg hm, readFileJson, hexp]
    obtain ⟨fs', hsave, hcwd, hself, hpres⟩ := saveExperiment_marker fs fuel id
      (setField (Json.obj fields) "testData" (Json.arr (xs ++ points))) hg hm
    refine ⟨fs', ?_, ?_⟩
    · simp only [storeTestData, hbody, hvalid, if_true, hload, htd, jsOr, truthy, hsave]
    · obtain ⟨me, hme⟩ := Option.isSome_iff_exists.1 hm
      have hm' : existsSyncB fs' (fs'.cwd ++ [".root"]) = true := by
        rw [hcwd]
        have := hpres (fs.cwd ++ [".root"]) me (marker_ne_jsonPath fs.cwd id) hme
        simp [existsSyncB, this]
      have hg' : searchGuard fs'.cwd = true := by rw [hcwd]; exact hg
      have hload' : loadExperiment fs' (fuel + 1) id
          = some (some (setField (Json.obj fields) "testData" (Json.arr (xs ++ points)))) := by
        rw [loadExperiment_marker fs' fuel id hg' hm', readFileJson, hcwd, hself]
      simp only [getTestData, hload', getField_setField_self, jsOr, truthy, if_true]
  · intro id2 hload2
    simp only [storeTestData, hbody, hvalid, if_true, hload2]
  · intro bad hbad
    simp only [storeTestData, hbody, hbad, Bool.false_eq_true, if_false]

/-- Witness for C5 on a concrete store holding experiment `e1` with an empty
`testData` array: storing one well-shaped point answers 200 and a following
`get_test_data` returns exactly that point. -/
theorem C5_witness :
    (∃ fs', storeTestData
        ⟨["w"], [(["w"], Entry.dir), (["w", ".root"], Entry.file FileContent.garbage),
                 (["w", "experiments"], Entry.dir), (["w", "experiments", "e1"], Entry.dir),
                 (["w", "experiments", "e1", "experiment.json"],
                  Entry.file (FileContent.json
                    (Json.obj [("id", Json.str "e1"), ("testData", Json.arr [])])))]⟩
        1 (some "e1")
        (Json.obj [("testData", Json.arr
          [Json.obj
            [("position", Json.obj [("x", Json.num 1), ("y", Json.num 2), ("z", Json.num 3)]),
             ("controls",
              Json.obj [("throttle", Json.num 4), ("pitch", Json.num 5), ("roll", Json.num 6)]),
             ("timestamp", Json.str "t")]])]) = some (fs', 200) ∧
      getTestData fs' 1 (some "e1")
        = some (200, some (Json.arr ([] ++
            [Json.obj
              [("position", Json.obj [("x", Json.num 1), ("y", Json.num 2), ("z", Json.num 3)]),
               ("controls",
                Json.obj [("throttle", Json.num 4), ("pitch", Json.num 5), ("roll", Json.num 6)]),
               ("timestamp", Json.str "t")]])))) ∧
    (∀ id2, loadExperiment
        ⟨["w"], [(["w"], Entry.dir), (["w", ".root"], Entry.file FileContent.garbage),
                 (["w", "experiments"], Entry.dir), (["w", "experiments", "e1"], Entry.dir),
                 (["w", "experiments", "e1", "experiment.json"],
                  Entry.file (FileContent.json
                    (Json.obj [("id", Json.str "e1"), ("testData", Json.arr [])])))]⟩
        1 id2 = some none →
      storeTestData
        ⟨["w"], [(["w"], Entry.dir), (["w", ".root"], Entry.file FileContent.garbage),
                 (["w", "experiments"], Entry.dir), (["w", "experiments", "e1"], Entry.dir),
                 (["w", "experiments", "e1", "experiment.json"],
                  Entry.file (FileContent.json
                    (Json.obj [("id", Json.str "e1"), ("testData", Json.arr [])])))]⟩
        1 (some id2)
        (Json.obj [("testData", Json.arr
          [Json.obj
            [("position", Json.obj [("x", Json.num 1), ("y", Json.num 2), ("z", Json.num 3)]),
             ("controls",
              Json.obj [("throttle", Json.num 4), ("pitch", Json.num 5), ("roll", Json.num 6)]),
             ("timestamp", Json.str "t")]])]) =
        some
          (⟨["w"], [(["w"], Entry.dir), (["w", ".root"], Entry.file FileContent.garbage),
                    (["w", "experiments"], Entry.dir), (["w", "experiments", "e1"], Entry.dir),
                    (["w", "experiments", "e1", "experiment.json"],
                     Entry.file (FileContent.json
                       (Json.obj [("id", Json.str "e1"), ("testData", Json.arr [])])))]⟩,
           404)) ∧
    (∀ bad : List Json, bad.all isValidPoint = false →
      storeTestData
        ⟨["w"], [(["w"], Entry.dir), (["w", ".root"], Entry.file FileContent.garbage),
                 (["w", "experiments"], Entry.dir), (["w", "experiments", "e1"], Entry.dir),
                 (["w", "experiments", "e1", "experiment.json"],
                  Entry.file (FileContent.json
                    (Json.obj [("id", Json.str "e1"), ("testData", Json.arr [])])))]⟩
        1 (some "e1") (Json.obj [("testData", Json.arr bad)]) =
        some
          (⟨["w"], [(["w"], Entry.dir), (["w", ".root"], Entry.file FileContent.garbage),
                    (["w", "experiments"], Entry.dir), (["w", "experiments", "e1"], Entry.dir),
                    (["w", "experiments", "e1", "experiment.json"],
                     Entry.file (FileContent.json
                       (Json.obj [("id", Json.str "e1"), ("testData", Json.arr [])])))]⟩,
           400)) :=
  C5_store_then_get
    ⟨["w"], [(["w"], Entry.dir), (["w", ".root"], Entry.file FileContent.garbage),
             (["w", "experiments"], Entry.dir), (["w", "experiments", "e1"], Entry.dir),
             (["w", "experiments", "e1", "experiment.json"],
              Entry.file (FileContent.json
                (Json.obj [("id", Json.str "e1"), ("testData", Json.arr [])])))]⟩
    0 "e1"
    [Json.obj
      [("position", Json.obj [("x", Json.num 1), ("y", Json.num 2), ("z", Json.num 3)]),
       ("controls",
        Json.obj [("throttle", Json.num 4), ("pitch", Json.num 5), ("roll", Json.num 6)]),
       ("timestamp", Json.str "t")]]
    [("id", Json.str "e1"), ("testData", Json.arr [])] [] rfl rfl rfl rfl rfl

/-! ## Claim C6 -/

/-- Inserting into a list is a permutation of consing. -/
theorem insertDesc_perm (x : ExpSummary) (l : List ExpSummary) :
    List.Perm (insertDesc x l) (x :: l) := by
  induction l with
  | nil => exact List.Perm.refl _
  | cons y ys ih =>
    rw [insertDesc]
    split
    · exact List.Perm.refl _
    · exact (ih.cons y).trans (List.Perm.swap x y ys)

/-- The comparator sort is a permutation of its input. -/
theorem sortDesc_perm (l : List ExpSummary) : List.Perm (sortDesc l) l := by
  induction l with
  | nil => exact List.Perm.nil
  | cons x xs ih => exact (insertDesc_perm x (sortDesc xs)).trans (ih.cons x)

/-- Insertion preserves descending order of the `getTime startTime` key. -/
theorem insertDesc_sorted (x : ExpSummary) (l : List ExpSummary)
    (h : l.Pairwise (fun a b => getTime b.startTime ≤ getTime a.startTime)) :
    (insertDesc x l).Pairwise (fun a b => getTime b.startTime ≤ getTime a.startTime) := by
  induction l with
  | nil => simp [insertDesc]
  | cons y ys ih =>
    rw [insertDesc]
    by_cases hc : getTime y.startTime ≤ getTime x.startTime
    · rw [if_pos hc]
      refine List.Pairwise.cons ?_ h
      intro z hz
      rcases List.mem_cons.mp hz with hzy | hzys
      · rw [hzy]; exact hc
      · exact le_trans (List.rel_of_pairwise_cons h hzys) hc
    · rw [if_neg hc]
      have hxy : getTime x.startTime ≤ getTime y.startTime := le_of_not_le hc
      refine List.Pairwise.cons ?_ (ih (List.Pairwise.of_cons h))
      intro z hz
      rcases List.mem_cons.mp ((insertDesc_perm x ys).mem_iff.mp hz) with hzx | hzys
      · rw [hzx]; exact hxy
      · exact List.rel_of_pairwise_cons h hzys

/-- The comparator sort yields a descending-by-key list. -/
theorem sortDesc_sorted (l : List ExpSummary) :
    (sortDesc l).Pairwise (fun a b => getTime b.startTime ≤ getTime a.startTime) := by
  induction l with
  | nil => simp [sortDesc]
  | cons x xs ih => exact insertDesc_sorted x (sortDesc xs) ih

/-- Claim C6: when the experiments directory exists and the parse-able
experiments carry pairwise-distinct startTime keys, `listExperiments`
returns exactly one projected entry per experiment whose `experiment.json`
parses (a permutation of the projected collection — unparsable entries are
excluded without failing the call, by construction of `parsedSummaries`),
strictly sorted by startTime descending. -/
theorem C6_list_sorted_desc (fs : Fs) (now : Int)
    (hdir : existsSyncB fs (fs.cwd ++ ["experiments"]) = true)
    (hdist : (parsedSummaries fs now).Pairwise
      (fun a b => getTime a.startTime ≠ getTime b.startTime)) :
    List.Perm (listExperiments fs now) (parsedSummaries fs now) ∧
    (listExperiments fs now).Pairwise
      (fun a b => getTime b.startTime < getTime a.startTime) := by
  have hlist : listExperiments fs now = sortDesc (parsedSummaries fs now) := by
    rw [listExperiments, if_pos hdir]
  have hperm : List.Perm (sortDesc (parsedSummaries fs now)) (parsedSummaries fs now) :=
    sortDesc_perm _
  constructor
  · rw [hlist]; exact hperm
  · rw [hlist]
    have hsorted := sortDesc_sorted (parsedSummaries fs now)
    have hne : (sortDesc (parsedSummaries fs now)).Pairwise
        (fun a b => getTime a.startTime ≠ getTime b.startTime) :=
      (hperm.pairwise_iff (fun h => Ne.symm h)).mpr hdist
    exact (hsorted.and hne).imp (fun hab => lt_of_le_of_ne hab.1 (Ne.symm hab.2))

/-- Witness for C6: a store with two parse-able experiments (startTimes 5
and 9) and one unparsable one; the listing is the two projections, most
recent first, and is a permutation of the projected collection. -/
theorem C6_witness :
    List.Perm
      (listExperiments
        ⟨["w"], [(["w", "experiments"], Entry.dir),
                 (["w", "experiments", "a"], Entry.dir),
                 (["w", "experiments", "a", "experiment.json"],
                  Entry.file (FileContent.json
                    (Json.obj [("status", Json.str "started"), ("startTime", Json.num 5),
                               ("instructions", Json.str "hover")]))),
                 (["w", "experiments", "b"], Entry.dir),
                 (["w", "experiments", "b", "experiment.json"],
                  Entry.file (FileContent.json
                    (Json.obj [("status", Json.str "completed"), ("startTime", Json.num 9),
                               ("instructions", Json.str "land")]))),
                 (["w", "experiments", "c"], Entry.dir),
                 (["w", "experiments", "c", "experiment.json"],
                  Entry.file FileContent.garbage)]⟩
        99)
      (parsedSummaries
        ⟨["w"], [(["w", "experiments"], Entry.dir),
                 (["w", "experiments", "a"], Entry.dir),
                 (["w", "experiments", "a", "experiment.json"],
                  Entry.file (FileContent.json
                    (Json.obj [("status", Json.str "started"), ("startTime", Json.num 5),
                               ("instructions", Json.str "hover")]))),
                 (["w", "experiments", "b"], Entry.dir),
                 (["w", "experiments", "b", "experiment.json"],
                  Entry.file (FileContent.json
                    (Json.obj [("status", Json.str "completed"), ("startTime", Json.num 9),
                               ("instructions", Json.str "land")]))),
                 (["w", "experiments", "c"], Entry.dir),
                 (["w", "experiments", "c", "experiment.json"],
                  Entry.file FileContent.garbage)]⟩
        99) ∧
    (listExperiments
        ⟨["w"], [(["w", "experiments"], Entry.dir),
                 (["w", "experiments", "a"], Entry.dir),
                 (["w", "experiments", "a", "experiment.json"],
                  Entry.file (FileContent.json
                    (Json.obj [("status", Json.str "started"), ("startTime", Json.num 5),
                               ("instructions", Json.str "hover")]))),
                 (["w", "experiments", "b"], Entry.dir),
                 (["w", "experiments", "b", "experiment.json"],
                  Entry.file (FileContent.json
                    (Json.obj [("status", Json.str "completed"), ("startTime", Json.num 9),
                               ("instructions", Json.str "land")]))),
                 (["w", "experiments", "c"], Entry.dir),
                 (["w", "experiments", "c", "experiment.json"],
                  Entry.file FileContent.garbage)]⟩
        99).Pairwise
      (fun a b => getTime b.startTime < getTime a.startTime) :=
  C6_list_sorted_desc
    ⟨["w"], [(["w", "experiments"], Entry.dir),
             (["w", "experiments", "a"], Entry.dir),
             (["w", "experiments", "a", "experiment.json"],
              Entry.file (FileContent.json
                (Json.obj [("status", Json.str "started"), ("startTime", Json.num 5),
                           ("instructions", Json.str "hover")]))),
             (["w", "experiments", "b"], Entry.dir),
             (["w", "experiments", "b", "experiment.json"],
              Entry.file (FileContent.json
                (Json.obj [("status", Json.str "completed"), ("startTime", Json.num 9),
                           ("instructions", Json.str "land")]))),
             (["w", "experiments", "c"], Entry.dir),
             (["w", "experiments", "c", "experiment.json"],
              Entry.file FileContent.garbage)]⟩
    99 rfl (by decide)

/-! ## Claim C3 -/

/-- Claim C3 (code bug): in the missing-template branch, `startAgent` calls
`addMessage` and `updateState` before `createState` has ever run for this
id, and both registry operations refuse unknown ids. So on a fresh id with
the template directory absent, `startAgentSync` returns normally but
records nothing: the registry is unchanged, no state exists for the id, and
every later `get_experiment_state` poll answers the 200 pending
placeholder — the status never becomes `error` and no message mentioning
the missing directory is observable. -/
theorem C3_missing_template_error_dropped (env : AgentEnv) (fs : Fs) (states : Registry)
    (id : String) (directory : FPath) (now now2 : Nat)
    (hid : id ≠ "")
    (hfresh : getState states id = none)
    (hmissing : existsSyncB fs (directory.dropLast.dropLast ++ ["drone-challenge"]) = false) :
    startAgentSync env fs states id directory now = (fs, states, false) ∧
    getState (startAgentSync env fs states id directory now).2.1 id = none ∧
    getExperimentState (startAgentSync env fs states id directory now).2.1 (some id) now2 =
      { code := 200, status := "pending",
        log := [⟨"assistant", "Waiting for agent to start...", now2, "pending"⟩] } := by
  simp only [getState] at hfresh
  have h1 : startAgentSync env fs states id directory now = (fs, states, false) := by
    simp only [startAgentSync]
    rw [if_pos hmissing]
    rw [addMessage_not_found states id _ "error" now hfresh]
    rw [updateState_not_found states id _ now hfresh]
  refine ⟨h1, ?_, ?_⟩
  · rw [h1]
    exact hfresh
  · rw [h1]
    simp [getExperimentState, hid, getState, hfresh]

/-- Witness for C3: fresh id `e3`, empty registry, a file system without the
template directory; `startAgentSync` returns without spawning and the poll
still reports the pending placeholder. -/
theorem C3_witness :
    startAgentSync ⟨none, false, false⟩ ⟨["w"], []⟩ [] "e3" ["w", "experiments", "e3"] 0
      = (⟨["w"], []⟩, [], false) ∧
    getState (startAgentSync ⟨none, false, false⟩ ⟨["w"], []⟩ [] "e3"
      ["w", "experiments", "e3"] 0).2.1 "e3" = none ∧
    getExperimentState (startAgentSync ⟨none, false, false⟩ ⟨["w"], []⟩ [] "e3"
        ["w", "experiments", "e3"] 0).2.1 (some "e3") 1 =
      { code := 200, status := "pending",
        log := [⟨"assistant", "Waiting for agent to start...", 1, "pending"⟩] } :=
  C3_missing_template_error_dropped ⟨none, false, false⟩ ⟨["w"], []⟩ [] "e3"
    ["w", "experiments", "e3"] 0 1 (by decide) rfl rfl

/-! ## Claim C10 -/

/-- The forwarding invariant: starting from a buffer shorter than ten, the
buffer stays shorter than ten, no parsed point is lost or reordered between
the POSTed batches and the buffer, and every new batch has exactly ten
points. -/
theorem processLines_inv (lines : List String) (st : SimRun)
    (h : st.buffer.length < 10) :
    (processLines st lines).buffer.length < 10 ∧
    (processLines st lines).posts.join ++ (processLines st lines).buffer
      = st.posts.join ++ (st.buffer ++ dataLines lines) ∧
    ∀ b ∈ (processLines st lines).posts, b ∈ st.posts ∨ b.length = 10 := by
  induction lines generalizing st with
  | nil =>
    refine ⟨h, ?_, fun b hb => Or.inl hb⟩
    simp [processLines, dataLines]
  | cons line rest ih =>
    have hstep : processLines st (line :: rest) = processLines (processLine st line) rest := by
      simp only [processLines, List.foldl_cons]
    rw [hstep]
    by_cases hh : line.startsWith "timestamp," = true
    · have hpl : processLine st line = st := by
        simp [processLine, hh]
      rw [hpl]
      obtain ⟨a, b, c⟩ := ih st h
      refine ⟨a, ?_, c⟩
      rw [b]
      simp [dataLines, hh]
    · by_cases hflush : 10 ≤ (st.buffer ++ [parseCsvLine line]).length
      · have hlen : (st.buffer ++ [parseCsvLine line]).length = 10 := by
          simp only [List.length_append, List.length_singleton] at hflush ⊢
          omega
        have hpl : processLine st line =
            { buffer := [], posts := st.posts ++ [st.buffer ++ [parseCsvLine line]] } := by
          rw [processLine, if_neg hh, if_pos hflush]
        rw [hpl]
        obtain ⟨a, b, c⟩ :=
          ih ⟨[], st.posts ++ [st.buffer ++ [parseCsvLine line]]⟩ (by simp)
        refine ⟨a, ?_, ?_⟩
        · rw [b]
          simp [dataLines, hh, List.join_append]
        · intro bb hb
          rcases c bb hb with hin | hl
          · rcases List.mem_append.mp hin with h1 | h2
            · exact Or.inl h1
            · right
              rw [List.mem_singleton.mp h2]
              exact hlen
          · exact Or.inr hl
      · have hpl : processLine st line =
            { buffer := st.buffer ++ [parseCsvLine line], posts := st.posts } := by
          rw [processLine, if_neg hh, if_neg hflush]
        rw [hpl]
        have hlt : (st.buffer ++ [parseCsvLine line]).length < 10 := by
          simp only [List.length_append, List.length_singleton] at hflush ⊢
          omega
        obtain ⟨a, b, c⟩ := ih ⟨st.buffer ++ [parseCsvLine line], st.posts⟩ hlt
        refine ⟨a, ?_, c⟩
        rw [b]
        simp [dataLines, hh]

/-- Claim C10: starting from the empty buffer, every batch POSTed to the
telemetry-store API has exactly ten points; the batches concatenated with
the final buffer are exactly the parsed non-header points in order; the
final buffer holds fewer than ten points; and the process-exit handler
leaves the forwarding state untouched, so those buffered points are never
forwarded. -/
theorem C10_batches_of_ten (lines : List String) (states : Registry) (id : String)
    (code : Int) (now : Nat) :
    (∀ b ∈ (processLines ⟨[], []⟩ lines).posts, b.length = 10) ∧
    (processLines ⟨[], []⟩ lines).posts.join ++ (processLines ⟨[], []⟩ lines).buffer
      = dataLines lines ∧
    (processLines ⟨[], []⟩ lines).buffer.length < 10 ∧
    (onDroneClose states id (processLines ⟨[], []⟩ lines) code now).2
      = processLines ⟨[], []⟩ lines := by
  obtain ⟨a, b, c⟩ := processLines_inv lines ⟨[], []⟩ (by simp)
  refine ⟨?_, ?_, a, ?_⟩
  · intro bb hb
    rcases c bb hb with hin | hl
    · simp at hin
    · exact hl
  · rw [b]
    simp
  · rw [onDroneClose]
    split
    · rfl
    · rfl

end Vibe
